import Mathlib

/-!
Verification of the CIT (Container Integration Test) core of `dbuild`.

This file gives a shallow embedding, in Lean 4, of the parts of
`dbuild/test.py`, `dbuild/screenshot.py` and `dbuild/verify.py` that the
frozen claims are about, and proves or refutes each claim against that
embedding.  External effects (podman calls, sockets, HTTP, the rendering
engine, the filesystem) are modelled as oracles: a record of booleans and
functions describing the outcomes the environment would produce, so every
definition stays executable and every concrete scenario can be evaluated
by `decide`.

Conventions used throughout:
* Python `int` is embedded as `Int`, `str` as `String`, `None` as
  `Option.none`.
* Python truthiness (`if x:` on an `int | None` or `str | None`) is made
  explicit through `truthyInt` / `truthyStr`; `a or b` becomes
  `pyOrInt` / `pyOrStr`.
* Polling loops (`while elapsed < timeout: ...; elapsed += step`) are
  embedded by structural recursion on the exact number of iterations the
  `while` condition admits, with the k-th iteration reading the k-th
  observation from an oracle `Nat → _`.
-/

namespace DBuild

/-- Python truthiness of an `int | None` value: `None` and `0` are falsy. -/
def truthyInt : Option Int → Bool
  | none => false
  | some n => n ≠ 0

/-- Python truthiness of a `str | None` value: `None` and `""` are falsy. -/
def truthyStr : Option String → Bool
  | none => false
  | some s => s ≠ ""

/-- Python `a or b` on `int | None` operands (`test.port or label_info["port"]`,
`dbuild/test.py:464`): returns `a` when truthy, else `b`. -/
def pyOrInt (a b : Option Int) : Option Int :=
  if truthyInt a then a else b

/-- Python `a or b` on `str | None` operands (`test.py:465`). -/
def pyOrStr (a b : Option String) : Option String :=
  if truthyStr a then a else b

/-! ## Mode resolution (`test.py:155-209`) -/

/-- Embedding of `_downgrade_mode` (`test.py:155-172`): downgrade a mode to
the next level that needs no extra dependencies.  The source tests
`if health or port` with Python truthiness, then has an unreachable
`if port` branch, then falls back to `"shell"`; non-`"screenshot"` modes
are returned unchanged. -/
def downgrade_mode (mode : String) (port : Option Int) (health : Option String) :
    String :=
  if mode = "screenshot" then
    if truthyStr health || truthyInt port then "health"
    else if truthyInt port then "port"
    else "shell"
  else mode

/-- Embedding of `_resolve_mode` (`test.py:175-209`).  The capability probe
`_check_screenshot_deps` reads the ambient environment (installed Python
packages and binaries); it is injected here as `missingDeps`, true when
the probe would report at least one missing dependency.  `baseline`
injects the truthiness of the `baseline` argument (a `Path | None`). -/
def resolve_mode (mode : String) (port : Option Int) (health : Option String)
    (baseline : Bool) (missingDeps : Bool) : String :=
  let m :=
    if mode = "" then
      if baseline then "screenshot"
      else if truthyStr health then "health"
      else if truthyInt port then "port"
      else "shell"
    else mode
  if m = "screenshot" then
    if missingDeps then downgrade_mode m port health else m
  else m

/-- Rank of a test mode in the cumulative order `shell < port < health <
screenshot` (spec section 3). -/
def modeRank : String → Nat
  | "port" => 1
  | "health" => 2
  | "screenshot" => 3
  | _ => 0

/-- C4: when the (possibly auto-detected) mode is `screenshot` and at least
one screenshot capability is missing, the resolved effective mode follows
the single deterministic cascade `health` if health or port is known, else
`port` if port is known, else `shell`; the downgrade never moves up the
order `shell < port < health < screenshot`; and modes other than
`screenshot` are returned unchanged by the downgrade. -/
theorem c4_downgrade_cascade (port : Option Int) (health : Option String)
    (m : String) (baseline : Bool) :
    (resolve_mode "screenshot" port health baseline true =
      (if truthyStr health || truthyInt port then "health"
       else if truthyInt port then "port"
       else "shell"))
    ∧ (resolve_mode "" port health true true =
      (if truthyStr health || truthyInt port then "health"
       else if truthyInt port then "port"
       else "shell"))
    ∧ modeRank (downgrade_mode m port health) ≤ modeRank m
    ∧ (m ≠ "screenshot" → downgrade_mode m port health = m) := by
  refine ⟨?_, ?_, ?_, ?_⟩
  · simp only [resolve_mode, downgrade_mode]
    cases truthyStr health <;> cases truthyInt port <;> simp
  · simp only [resolve_mode, downgrade_mode]
    cases truthyStr health <;> cases truthyInt port <;> simp
  · by_cases hm : m = "screenshot"
    · subst hm
      simp only [downgrade_mode]
      cases truthyStr health <;> cases truthyInt port <;> simp [modeRank]
    · simp [downgrade_mode, hm]
  · intro hm
    simp [downgrade_mode, hm]

/-- Witness for C4 at a concrete input: a `screenshot` request with a known
port and no health path, with missing capabilities, downgrades to
`health`, and the `port` mode is left unchanged. -/
theorem c4_downgrade_cascade_witness :
    resolve_mode "screenshot" (some 3000) none false true = "health"
    ∧ downgrade_mode "port" (some 3000) none = "port" := by
  refine ⟨?_, ?_⟩
  · have h := (c4_downgrade_cascade (some 3000) none "port" false).1
    simpa [truthyInt, truthyStr] using h
  · exact (c4_downgrade_cascade (some 3000) none "port" false).2.2.2 (by decide)

/-- C5: with an empty requested mode (and the capability probe reporting
nothing missing), resolution auto-detects exactly: `screenshot` if a
baseline is present; else `health` if a health path is present; else
`port` if a port is present; else `shell`.  In particular each of the four
modes is produced exactly when only its matching signal is present. -/
theorem c5_auto_detect (port : Option Int) (health : Option String)
    (baseline : Bool) :
    (resolve_mode "" port health baseline false =
      (if baseline then "screenshot"
       else if truthyStr health then "health"
       else if truthyInt port then "port"
       else "shell"))
    ∧ resolve_mode "" none none true false = "screenshot"
    ∧ resolve_mode "" none (some "/health") false false = "health"
    ∧ resolve_mode "" (some 8080) none false false = "port"
    ∧ resolve_mode "" none none false false = "shell" := by
  refine ⟨?_, by decide, by decide, by decide, by decide⟩
  simp only [resolve_mode]
  cases baseline <;> cases htr : truthyStr health <;>
    cases ptr : truthyInt port <;> simp [htr, ptr]

/-! ## Ready-pattern waiting (`test.py:214-245`) -/

/-- One observation of the container during a poll of `_wait_for_ready`:
whether `podman.container_running` reports it running, and whether the
compiled ready pattern matches the current `podman.logs` output. -/
structure ReadyObs where
  running : Bool
  found : Bool

/-- Iterations of the `while elapsed < timeout` loop of `_wait_for_ready`
(`test.py:227-242`), the k-th iteration reading observation `obs k`.
Exiting the loop because the timeout elapsed returns `true` (`test.py:245`,
timeout is not fatal); a non-running container returns `false`; a pattern
match returns `true`. -/
def wait_for_ready_iter (obs : Nat → ReadyObs) : Nat → Nat → Bool
  | _, 0 => true
  | k, n + 1 =>
    if (obs k).running = false then false
    else if (obs k).found then true
    else wait_for_ready_iter obs (k + 1) n

/-- Embedding of `_wait_for_ready` (`test.py:214-245`): with
`poll_interval = 3`, the loop body runs once for each `k` with
`3 * k < timeout`, i.e. `⌈timeout / 3⌉` times. -/
def wait_for_ready (obs : Nat → ReadyObs) (timeout : Nat) : Bool :=
  wait_for_ready_iter obs 0 ((timeout + 2) / 3)

/-! ## Health check (`test.py:290-331`) -/

/-- Oracle for `_test_health` polls: `none` models a connection failure
(any of the exceptions caught at `test.py:324`), `some code` a response
with HTTP status `code`. -/
def HealthObs := Nat → Option Nat

/-- Iterations of the `while elapsed < timeout` loop of `_test_health`
(`test.py:307-328`): a response whose status is neither 502 nor 503
returns `true` immediately; otherwise the loop sleeps 2 seconds and
retries; running out of time returns `false` (`test.py:331`). -/
def test_health_iter (obs : HealthObs) : Nat → Nat → Bool
  | _, 0 => false
  | k, n + 1 =>
    match obs k with
    | some code =>
      if code ≠ 502 ∧ code ≠ 503 then true else test_health_iter obs (k + 1) n
    | none => test_health_iter obs (k + 1) n

/-- Embedding of `_test_health` (`test.py:290-331`): with a 2-second step,
the loop body runs once for each `k` with `2 * k < timeout`. -/
def test_health (obs : HealthObs) (timeout : Nat) : Bool :=
  test_health_iter obs 0 ((timeout + 1) / 2)

/-- A poll observation that `_test_health` accepts as healthy. -/
def healthyObs (o : Option Nat) : Prop :=
  ∃ c, o = some c ∧ c ≠ 502 ∧ c ≠ 503

instance (o : Option Nat) : Decidable (healthyObs o) := by
  unfold healthyObs
  cases o with
  | none => exact isFalse (by simp)
  | some c => exact decidable_of_iff (c ≠ 502 ∧ c ≠ 503) (by simp)

/-- Characterisation of the iteration helper: it succeeds exactly when some
iteration within the budget observes a healthy response. -/
theorem test_health_iter_eq_true_iff (obs : HealthObs) :
    ∀ n k, test_health_iter obs k n = true ↔
      ∃ j, j < n ∧ healthyObs (obs (k + j)) := by
  intro n
  induction n with
  | zero => intro k; simp [test_health_iter]
  | succ m ih =>
    intro k
    simp only [test_health_iter]
    split
    next code hk =>
      by_cases hc : code ≠ 502 ∧ code ≠ 503
      · rw [if_pos hc]
        constructor
        · intro _; exact ⟨0, by omega, ⟨code, by simpa using hk, hc.1, hc.2⟩⟩
        · intro _; rfl
      · rw [if_neg hc]
        rw [ih]
        constructor
        · rintro ⟨j, hj, hh⟩
          exact ⟨j + 1, by omega, by simpa [Nat.add_assoc, Nat.add_comm 1 j] using hh⟩
        · rintro ⟨j, hj, hh⟩
          cases j with
          | zero =>
            rcases hh with ⟨c, hc1, hc2, hc3⟩
            rw [Nat.add_zero, hk] at hc1
            cases hc1
            exact absurd ⟨hc2, hc3⟩ hc
          | succ i =>
            exact ⟨i, by omega, by simpa [Nat.add_assoc, Nat.add_comm 1 i] using hh⟩
    next hk =>
      rw [ih]
      constructor
      · rintro ⟨j, hj, hh⟩
        exact ⟨j + 1, by omega, by simpa [Nat.add_assoc, Nat.add_comm 1 j] using hh⟩
      · rintro ⟨j, hj, hh⟩
        cases j with
        | zero => simp [healthyObs, hk] at hh
        | succ i =>
          exact ⟨i, by omega, by simpa [Nat.add_assoc, Nat.add_comm 1 i] using hh⟩

/-- C6: `_test_health` returns `True` if and only if some poll within the
wait-timeout (polls happen every 2 seconds, at elapsed times `2 * k <
timeout`) receives a response whose status code is neither 502 nor 503;
connection failures and 502/503 responses count as not-ready, and with no
qualifying response before the timeout it returns `False`. -/
theorem c6_health_iff (obs : HealthObs) (timeout : Nat) :
    test_health obs timeout = true ↔
      ∃ k, 2 * k < timeout ∧ ∃ c, obs k = some c ∧ c ≠ 502 ∧ c ≠ 503 := by
  unfold test_health
  rw [test_health_iter_eq_true_iff]
  constructor
  · rintro ⟨j, hj, hh⟩
    rcases hh with ⟨c, h1, h2, h3⟩
    exact ⟨j, by omega, c, by simpa using h1, h2, h3⟩
  · rintro ⟨k, hk, c, h1, h2, h3⟩
    exact ⟨k, by omega, c, by simpa using h1, h2, h3⟩

/-- Witness for C6: a 404 response on the second poll is judged healthy
within a 10-second timeout (so a live endpoint returning 404 counts as
healthy), while connection failures alone never do. -/
theorem c6_health_iff_witness :
    test_health (fun k => if k = 1 then some 404 else none) 10 = true := by
  exact (c6_health_iff (fun k => if k = 1 then some 404 else none) 10).mpr
    ⟨1, by omega, 404, by simp, by decide, by decide⟩

/-! ## Screenshot stability loop (`screenshot.py:74-99`)

Time is discretised in half-second ticks: the loop of `capture` takes one
frame every 0.5 s, so iteration `i` captures `frames i` at elapsed time
`i` half-seconds.  A wait of `w` seconds is `2 * w` ticks.  Frames are
encoded as natural numbers standing for the base64 screenshot strings. -/

/-- The `while time.time() - start_time < max_stability_wait` loop of
`capture` (`screenshot.py:83-91`), unrolled over its remaining iteration
budget `rem` (initially `2 * max_stability_wait` ticks).  Iteration `i`
declares stability (`some i`) when there is a previous frame, the current
frame equals it, and at least `min_wait` seconds (`2 * minWait` ticks)
have elapsed; running out of the budget gives up (`none`). -/
def capture_loop (frames : Nat → Nat) (minWait : Nat) : Nat → Nat → Option Nat
  | _, 0 => none
  | i, rem + 1 =>
    if 0 < i ∧ frames i = frames (i - 1) ∧ 2 * minWait ≤ i then some i
    else capture_loop frames minWait (i + 1) rem

/-- The loop bound `max_stability_wait = max(10, min_wait)` of
`screenshot.py:77`, in seconds. -/
def max_stability_wait (minWait : Nat) : Nat := max 10 minWait

/-- Embedding of the stability phase of `capture` (`screenshot.py:74-99`):
returns whether stability was declared, together with the tick index of
the frame saved by the final `driver.save_screenshot` call (the frame at
the moment the loop exits — on a stable exit that is the matching frame,
on giving up it is the frame captured at the ceiling).  In both cases a
frame is saved. -/
def capture_stability (frames : Nat → Nat) (minWait : Nat) : Bool × Nat :=
  match capture_loop frames minWait 0 (2 * max_stability_wait minWait) with
  | some i => (true, i)
  | none => (false, 2 * max_stability_wait minWait)

/-- A tick at which the stability test of `screenshot.py:86` succeeds. -/
def stableAt (frames : Nat → Nat) (minWait i : Nat) : Prop :=
  0 < i ∧ frames i = frames (i - 1) ∧ 2 * minWait ≤ i

instance (frames : Nat → Nat) (minWait i : Nat) :
    Decidable (stableAt frames minWait i) := by
  unfold stableAt; infer_instance

/-- Characterisation of `capture_loop`: starting at tick `i` with budget
`rem`, it returns the first tick in `[i, i + rem)` at which the stability
test succeeds, and `none` when there is no such tick. -/
theorem capture_loop_spec (frames : Nat → Nat) (minWait : Nat) :
    ∀ rem i,
      (∀ k, capture_loop frames minWait i rem = some k →
        i ≤ k ∧ k < i + rem ∧ stableAt frames minWait k ∧
          ∀ j, i ≤ j → j < k → ¬ stableAt frames minWait j)
      ∧ (capture_loop frames minWait i rem = none →
        ∀ j, i ≤ j → j < i + rem → ¬ stableAt frames minWait j) := by
  intro rem
  induction rem with
  | zero =>
    intro i
    refine ⟨fun k hk => by simp [capture_loop] at hk, fun _ j h1 h2 => by omega⟩
  | succ m ih =>
    intro i
    constructor
    · intro k hk
      by_cases hs : 0 < i ∧ frames i = frames (i - 1) ∧ 2 * minWait ≤ i
      · rw [capture_loop, if_pos hs] at hk
        cases hk
        exact ⟨le_refl i, by omega, hs, fun j h1 h2 => by omega⟩
      · rw [capture_loop, if_neg hs] at hk
        obtain ⟨h1, h2, h3, h4⟩ := (ih (i + 1)).1 k hk
        refine ⟨by omega, by omega, h3, fun j hj1 hj2 => ?_⟩
        rcases Nat.eq_or_lt_of_le hj1 with rfl | hlt
        · exact hs
        · exact h4 j (by omega) hj2
    · intro hk j h1 h2
      by_cases hs : 0 < i ∧ frames i = frames (i - 1) ∧ 2 * minWait ≤ i
      · rw [capture_loop, if_pos hs] at hk
        cases hk
      · rw [capture_loop, if_neg hs] at hk
        rcases Nat.eq_or_lt_of_le h1 with rfl | hlt
        · exact hs
        · exact (ih (i + 1)).2 hk j (by omega) (by omega)

/-- Counterexample for C7 as stated: with identical frames throughout and
`min_wait = 0`, the loop declares stability at tick 1 (elapsed 0.5 s),
strictly before `max(10 s, min_wait) = 10 s` (tick 20) has elapsed — so
`max(10s, minStabilityWait)` is not a floor below which stability is never
declared. -/
theorem c7_counterexample :
    capture_stability (fun _ => 0) 0 = (true, 1)
    ∧ 1 < 2 * max_stability_wait 0 := by
  constructor
  · rfl
  · decide

/-- C7 amended: the stability loop (one frame every 0.5 s) declares
"stable" at the *first* tick at which two consecutive captures are
identical and `minStabilityWait` has elapsed — so `minStabilityWait`, not
`max(10s, minStabilityWait)`, is the floor below which stability is never
declared; the loop runs at most `max(10s, minStabilityWait)` and then
gives up; in both cases the frame at the loop-exit tick is saved to the
output path (the second component of the result). -/
theorem c7_stability_amended (frames : Nat → Nat) (minWait : Nat) :
    ((capture_stability frames minWait).1 = true →
      stableAt frames minWait (capture_stability frames minWait).2
      ∧ 2 * minWait ≤ (capture_stability frames minWait).2
      ∧ (capture_stability frames minWait).2 < 2 * max_stability_wait minWait
      ∧ ∀ j, j < (capture_stability frames minWait).2 →
          ¬ stableAt frames minWait j)
    ∧ ((capture_stability frames minWait).1 = false →
      (capture_stability frames minWait).2 = 2 * max_stability_wait minWait
      ∧ ∀ j, j < 2 * max_stability_wait minWait →
          ¬ stableAt frames minWait j) := by
  have hspec := capture_loop_spec frames minWait (2 * max_stability_wait minWait) 0
  unfold capture_stability
  cases hc : capture_loop frames minWait 0 (2 * max_stability_wait minWait) with
  | some i =>
    dsimp only
    refine ⟨fun _ => ?_, fun h => by simp at h⟩
    obtain ⟨_, h2, h3, h4⟩ := hspec.1 i hc
    exact ⟨h3, h3.2.2, by omega, fun j hj => h4 j (by omega) hj⟩
  | none =>
    dsimp only
    refine ⟨fun h => by simp at h, fun _ => ?_⟩
    exact ⟨rfl, fun j hj => hspec.2 hc j (by omega) (by omega)⟩

/-- Witness for the amended C7 at a concrete input: with identical frames
and `min_wait = 3` s, stability is declared no earlier than tick 6
(3 seconds), i.e. the floor is `minStabilityWait` itself. -/
theorem c7_stability_amended_witness :
    2 * 3 ≤ (capture_stability (fun _ => 0) 3).2
    ∧ (capture_stability (fun _ => 0) 3).2 < 2 * max_stability_wait 3 := by
  have h := (c7_stability_amended (fun _ => 0) 3).1 (by decide)
  exact ⟨h.2.1, h.2.2.1⟩

/-! ## Cleanup registry (`test.py:33-55`) -/

/-- One entry of `_cleanup_targets` (`test.py:35`): a
`(compose_file, container_name)` pair of `str | None` values. -/
structure CleanupEntry where
  composeFile : Option String
  containerName : Option String
deriving DecidableEq

/-- An external teardown call issued by `_emergency_cleanup`. -/
inductive TeardownAction where
  | composeDown (file : String)
  | stop (container : String)
  | rm (container : String)
deriving DecidableEq

/-- The record of one iteration of the `_emergency_cleanup` loop over a
registered target: the entry, the external calls attempted for it, and
whether its teardown raised (the exception being swallowed by the
`except Exception: pass` at `test.py:48-49`). -/
structure TeardownAttempt where
  entry : CleanupEntry
  actions : List TeardownAction
  raised : Bool
deriving DecidableEq

/-- The external calls one loop iteration of `_emergency_cleanup`
(`test.py:41-47`) issues for `entry`: `compose_down` when the compose
file is truthy, else `stop` then `rm` when the container name is truthy
(`rm` is not reached when `stop` raises), else nothing. -/
def teardownActions (entry : CleanupEntry) (raises : Bool) : List TeardownAction :=
  if truthyStr entry.composeFile then
    [TeardownAction.composeDown (entry.composeFile.getD "")]
  else if truthyStr entry.containerName then
    if raises then [TeardownAction.stop (entry.containerName.getD "")]
    else [TeardownAction.stop (entry.containerName.getD ""),
          TeardownAction.rm (entry.containerName.getD "")]
  else []

/-- The `for compose_file, container_name in _cleanup_targets` loop of
`_emergency_cleanup` (`test.py:41-49`).  `raises i` injects whether the
teardown of the i-th entry raises; because the `try/except` wraps each
iteration's body, a raising iteration is recorded and the loop moves on
to the next entry unconditionally. -/
def cleanupLoop (raises : Nat → Bool) : Nat → List CleanupEntry → List TeardownAttempt
  | _, [] => []
  | i, e :: rest =>
    { entry := e, actions := teardownActions e (raises i), raised := raises i }
      :: cleanupLoop raises (i + 1) rest

/-- Embedding of `_emergency_cleanup` (`test.py:39-50`): run the loop over
every registered target, then `_cleanup_targets.clear()`.  The function is
total for every `raises` oracle — the model of "no exception propagates
out of the handler". -/
def emergency_cleanup (raises : Nat → Bool) (targets : List CleanupEntry) :
    List TeardownAttempt × List CleanupEntry :=
  (cleanupLoop raises 0 targets, [])

/-- The loop visits exactly the registered entries, in registration order,
whatever the raise pattern. -/
theorem cleanupLoop_entries (raises : Nat → Bool) :
    ∀ (targets : List CleanupEntry) (i : Nat),
      (cleanupLoop raises i targets).map TeardownAttempt.entry = targets := by
  intro targets
  induction targets with
  | nil => intro i; rfl
  | cons e rest ih =>
    intro i
    simp [cleanupLoop, ih (i + 1)]

/-- C2: for every raise pattern and every list of N registered targets —
in particular when the teardown of some target k < N raises — the
emergency-cleanup handler attempts teardown of all N targets in
registration order (the attempts project back to exactly the target
list), finishes with the registry empty, and, being a total function of
the raise oracle, lets no exception propagate. -/
theorem c2_emergency_cleanup_attempts_all (raises : Nat → Bool)
    (targets : List CleanupEntry) :
    (emergency_cleanup raises targets).1.map TeardownAttempt.entry = targets
    ∧ (emergency_cleanup raises targets).1.length = targets.length
    ∧ (emergency_cleanup raises targets).2 = [] := by
  refine ⟨cleanupLoop_entries raises targets 0, ?_, rfl⟩
  have h := congrArg List.length (cleanupLoop_entries raises targets 0)
  simpa using h

/-! ## Exact rational arithmetic helpers

The library's arithmetic on `ℚ` is irreducible, so concrete images could
not be evaluated inside proofs through it.  The verifier is therefore
defined through the following `mkRat`-based operations, each proved equal
to the corresponding standard operation on `ℚ`, so the definitions both
evaluate and carry their usual mathematical meaning. -/

/-- Negation on `ℚ` via `mkRat`. -/
def ratNeg (a : ℚ) : ℚ := mkRat (-a.num) a.den

/-- Addition on `ℚ` via `mkRat`. -/
def ratAdd (a b : ℚ) : ℚ :=
  mkRat (a.num * (b.den : Int) + (a.den : Int) * b.num) (a.den * b.den)

/-- Subtraction on `ℚ` via `mkRat`. -/
def ratSub (a b : ℚ) : ℚ := ratAdd a (ratNeg b)

/-- Multiplication on `ℚ` via `mkRat`. -/
def ratMul (a b : ℚ) : ℚ := mkRat (a.num * b.num) (a.den * b.den)

/-- Division of a rational by a natural number via `mkRat`. -/
def ratDivNat (a : ℚ) (n : Nat) : ℚ := mkRat a.num (a.den * n)

/-- Sum of a list of rationals. -/
def ratSum : List ℚ → ℚ
  | [] => 0
  | x :: xs => ratAdd x (ratSum xs)

theorem ratNeg_eq (a : ℚ) : ratNeg a = -a := by
  rw [ratNeg, Rat.mkRat_eq_div]
  push_cast
  rw [neg_div, Rat.num_div_den]

theorem ratAdd_eq (a b : ℚ) : ratAdd a b = a + b := by
  have ha : ((a.den : ℚ)) ≠ 0 := by
    exact_mod_cast a.den_nz
  have hb : ((b.den : ℚ)) ≠ 0 := by
    exact_mod_cast b.den_nz
  rw [ratAdd, Rat.mkRat_eq_div]
  push_cast
  conv_rhs => rw [← Rat.num_div_den a, ← Rat.num_div_den b]
  rw [div_add_div _ _ ha hb]

theorem ratSub_eq (a b : ℚ) : ratSub a b = a - b := by
  rw [ratSub, ratAdd_eq, ratNeg_eq, sub_eq_add_neg]

theorem ratMul_eq (a b : ℚ) : ratMul a b = a * b := by
  rw [ratMul, Rat.mkRat_eq_div]
  push_cast
  rw [← div_mul_div_comm, Rat.num_div_den, Rat.num_div_den]

theorem ratDivNat_eq (a : ℚ) (n : Nat) : ratDivNat a n = a / n := by
  rw [ratDivNat, Rat.mkRat_eq_div]
  push_cast
  rw [← div_div, Rat.num_div_den]

theorem ratSum_eq (l : List ℚ) : ratSum l = l.sum := by
  induction l with
  | nil => rfl
  | cons x xs ih => rw [ratSum, ratAdd_eq, ih, List.sum_cons]

/-! ## Visual verifier (`verify.py`)

An `Image` models the grayscale float array the checks of `verify.py`
operate on: the result of `skimage.color.rgb2gray` (or a 2-D input used
directly), pixel values rational in `[0, 1]`.  `skimage.filters.sobel`
convolves with the classic 3x3 Sobel kernels divided by 4 (smoothing
weights `[1, 2, 1] / 4`, edge weights `[1, 0, -1]`), boundary mode
`reflect` — which for a radius-1 kernel coincides with clamping the index
— and returns the magnitude `sqrt((g_row^2 + g_col^2) / 2)`.  Square
roots are avoided throughout by comparing squares of non-negative
quantities, which is an equivalence. -/

/-- A grayscale image: shape plus a pixel function (the embedding of a 2-D
float ndarray). -/
structure Image where
  height : Nat
  width : Nat
  pix : Nat → Nat → ℚ

/-- Boundary handling of `scipy.ndimage.convolve` mode `reflect` for the
offsets `-1` and `n` that a radius-1 kernel produces: `-1 ↦ 0`, `n ↦ n-1`
(identical to clamping). -/
def reflectIdx (n : Nat) (i : Int) : Nat :=
  if i < 0 then 0 else if (n : Int) ≤ i then n - 1 else i.toNat

/-- Pixel access with `reflect` boundary handling. -/
def pixAt (img : Image) (i j : Int) : ℚ :=
  img.pix (reflectIdx img.height i) (reflectIdx img.width j)

/-- The weighted window sum of the Sobel row derivative: `(a + 2b + c) -
(d + 2e + f)` for the three pixels above and the three below. -/
def sobelTap (a b c d e f : ℚ) : ℚ :=
  ratSub (ratAdd a (ratAdd (ratMul 2 b) c)) (ratAdd d (ratAdd (ratMul 2 e) f))

/-- The row-derivative Sobel component at `(i, j)`: convolution with the
kernel `outer([1, 0, -1], [1, 2, 1] / 4)` (the sign, flipped by
convolution, is irrelevant once squared). -/
def sobelRow (img : Image) (i j : Nat) : ℚ :=
  ratDivNat
    (sobelTap
      (pixAt img ((i : Int) - 1) ((j : Int) - 1))
      (pixAt img ((i : Int) - 1) (j : Int))
      (pixAt img ((i : Int) - 1) ((j : Int) + 1))
      (pixAt img ((i : Int) + 1) ((j : Int) - 1))
      (pixAt img ((i : Int) + 1) (j : Int))
      (pixAt img ((i : Int) + 1) ((j : Int) + 1))) 4

/-- The column-derivative Sobel component at `(i, j)`. -/
def sobelCol (img : Image) (i j : Nat) : ℚ :=
  ratDivNat
    (sobelTap
      (pixAt img ((i : Int) - 1) ((j : Int) - 1))
      (pixAt img (i : Int) ((j : Int) - 1))
      (pixAt img ((i : Int) + 1) ((j : Int) - 1))
      (pixAt img ((i : Int) - 1) ((j : Int) + 1))
      (pixAt img (i : Int) ((j : Int) + 1))
      (pixAt img ((i : Int) + 1) ((j : Int) + 1))) 4

/-- The Sobel row component in standard notation, for comparison with the
convolution formula of `skimage.filters.sobel`. -/
theorem sobelRow_eq (img : Image) (i j : Nat) :
    sobelRow img i j =
      (pixAt img ((i : Int) - 1) ((j : Int) - 1)
        + 2 * pixAt img ((i : Int) - 1) (j : Int)
        + pixAt img ((i : Int) - 1) ((j : Int) + 1)
        - (pixAt img ((i : Int) + 1) ((j : Int) - 1)
          + 2 * pixAt img ((i : Int) + 1) (j : Int)
          + pixAt img ((i : Int) + 1) ((j : Int) + 1))) / 4 := by
  rw [sobelRow, ratDivNat_eq, sobelTap, ratSub_eq, ratAdd_eq, ratAdd_eq,
    ratAdd_eq, ratAdd_eq, ratMul_eq, ratMul_eq]
  push_cast
  ring

/-- The Sobel column component in standard notation. -/
theorem sobelCol_eq (img : Image) (i j : Nat) :
    sobelCol img i j =
      (pixAt img ((i : Int) - 1) ((j : Int) - 1)
        + 2 * pixAt img (i : Int) ((j : Int) - 1)
        + pixAt img ((i : Int) + 1) ((j : Int) - 1)
        - (pixAt img ((i : Int) - 1) ((j : Int) + 1)
          + 2 * pixAt img (i : Int) ((j : Int) + 1)
          + pixAt img ((i : Int) + 1) ((j : Int) + 1))) / 4 := by
  rw [sobelCol, ratDivNat_eq, sobelTap, ratSub_eq, ratAdd_eq, ratAdd_eq,
    ratAdd_eq, ratAdd_eq, ratMul_eq, ratMul_eq]
  push_cast
  ring

/-- The `edges > 0.1` mask of `verify.py:32`: the Sobel magnitude is
`sqrt((g_row^2 + g_col^2) / 2)`, so magnitude `> 0.1` is equivalent to
`g_row^2 + g_col^2 > 2 / 100 = 1 / 50`. -/
def isEdge (img : Image) (i j : Nat) : Bool :=
  decide (mkRat 1 50 <
    ratAdd (ratMul (sobelRow img i j) (sobelRow img i j))
      (ratMul (sobelCol img i j) (sobelCol img i j)))

/-- The edge mask in standard notation. -/
theorem isEdge_eq (img : Image) (i j : Nat) :
    isEdge img i j =
      decide ((1 : ℚ) / 50 < sobelRow img i j ^ 2 + sobelCol img i j ^ 2) := by
  rw [isEdge, ratAdd_eq, ratMul_eq, ratMul_eq, Rat.mkRat_eq_div]
  norm_num [sq]

/-- Number of pixels of the image. -/
def numPixels (img : Image) : Nat := img.height * img.width

/-- Number of pixels whose edge magnitude exceeds 0.1. -/
def edgeCount (img : Image) : Nat :=
  ((List.range img.height).map (fun i =>
    (List.range img.width).countP (fun j => isEdge img i j))).sum

/-- The `np.mean(edges > 0.1)` of `verify.py:32`: the fraction of pixels
whose edge magnitude exceeds 0.1. -/
def edge_fraction (img : Image) : ℚ :=
  mkRat (edgeCount img) (numPixels img)

/-- The edge fraction in standard notation. -/
theorem edge_fraction_eq (img : Image) :
    edge_fraction img = (edgeCount img : ℚ) / (numPixels img : ℚ) := by
  rw [edge_fraction, Rat.mkRat_eq_div]
  push_cast
  rfl

/-- Default `EDGE_THRESHOLD` of `verify.py:18` (`0.005`, configurable via
the environment; the default is modelled). -/
def EDGE_THRESHOLD : ℚ := mkRat 5 1000

/-- The edge threshold is the rational `0.005`. -/
theorem EDGE_THRESHOLD_eq : EDGE_THRESHOLD = 5 / 1000 := by
  rw [EDGE_THRESHOLD, Rat.mkRat_eq_div]
  norm_num

/-- Default `BLANK_THRESHOLD` of `verify.py:17` (`3`). -/
def BLANK_THRESHOLD : ℚ := 3

/-- Sum of `f` over all pixels. -/
def pixelSum (img : Image) (f : ℚ → ℚ) : ℚ :=
  ratSum ((List.range img.height).map (fun i =>
    ratSum ((List.range img.width).map (fun j => f (img.pix i j)))))

/-- Mean pixel intensity. -/
def pixelMean (img : Image) : ℚ :=
  ratDivNat (pixelSum img (fun x => x)) (numPixels img)

/-- Population variance of the pixel intensities (`np.std` squared,
`ddof = 0`). -/
def pixelVariance (img : Image) : ℚ :=
  ratDivNat
    (pixelSum img (fun x =>
      ratMul (ratSub x (pixelMean img)) (ratSub x (pixelMean img))))
    (numPixels img)

/-- The variance in standard notation: the mean of the squared deviations
from the mean intensity. -/
theorem pixelVariance_eq (img : Image) :
    pixelVariance img =
      pixelSum img (fun x => (x - pixelMean img) ^ 2) / (numPixels img : ℚ) := by
  have hf : (fun x => ratMul (ratSub x (pixelMean img)) (ratSub x (pixelMean img)))
      = fun x : ℚ => (x - pixelMean img) ^ 2 := by
    funext x
    rw [ratMul_eq, ratSub_eq, sq]
  rw [pixelVariance, hf, ratDivNat_eq]

/-- Embedding of `is_blank` (`verify.py:22-25`): `np.std(gray) <
BLANK_THRESHOLD / 255`, compared through squares (both sides are
non-negative). -/
def is_blank (img : Image) : Bool :=
  decide (pixelVariance img <
    ratMul (ratDivNat BLANK_THRESHOLD 255) (ratDivNat BLANK_THRESHOLD 255))

/-- The blank test in standard notation. -/
theorem is_blank_eq (img : Image) :
    is_blank img = decide (pixelVariance img < (BLANK_THRESHOLD / 255) ^ 2) := by
  rw [is_blank, ratMul_eq, ratDivNat_eq, sq]
  norm_num

/-- Embedding of `has_ui_elements` (`verify.py:28-33`): the edge fraction
must strictly exceed `EDGE_THRESHOLD`. -/
def has_ui_elements (img : Image) : Bool :=
  decide (EDGE_THRESHOLD < edge_fraction img)

/-- Embedding of the baseline-free path of `verify` (`verify.py:51-86`)
on a readable image: blank check, then UI-content check, then success.
(The baseline-comparison branch, `verify.py:75-84`, is not modelled; no
claim concerns it.) -/
def verify (img : Image) : Bool × String :=
  if is_blank img then (false, "Image is blank (failed render)")
  else if has_ui_elements img = false then (false, "No UI elements detected")
  else (true, "Screenshot looks valid")

/-- A concrete 10x20 grayscale image: a dim pixel of intensity `3/20` in
the top-left corner (whose Sobel response is amplified by the reflect
boundary), plus a gentle brightness ramp over the right half (two-column
steps of `0.1`, below the edge threshold) that keeps the image non-blank.
Exactly one pixel — the corner — has edge magnitude above `0.1`, so the
edge fraction is exactly `1/200 = 0.005`, the default threshold. -/
def cexImage : Image :=
  ⟨10, 20, fun i j =>
    if i = 0 ∧ j = 0 then mkRat 3 20
    else if 9 ≤ j then mkRat ((j : Int) - 8) 20
    else 0⟩

/-- A high-contrast checkerboard image (1-pixel squares, intensities 0
and 1). -/
def checkerboard : Image :=
  ⟨8, 8, fun i j => if (i + j) % 2 = 0 then 1 else 0⟩

set_option maxRecDepth 4000 in
set_option maxHeartbeats 1000000 in
/-- Exactly one of the 200 pixels of `cexImage` passes the edge mask. -/
theorem cexImage_edgeCount : edgeCount cexImage = 1 := by decide

set_option maxRecDepth 4000 in
set_option maxHeartbeats 1000000 in
/-- The pixel variance of `cexImage` is above the blank threshold. -/
theorem cexImage_not_blank : is_blank cexImage = false := by decide

/-- The edge fraction of `cexImage` is exactly the default threshold. -/
theorem cexImage_fraction : edge_fraction cexImage = EDGE_THRESHOLD := by
  unfold edge_fraction
  rw [cexImage_edgeCount]
  decide

/-- The checkerboard passes the UI-content mask and is not blank. -/
theorem checkerboard_facts :
    has_ui_elements checkerboard = true ∧ is_blank checkerboard = false := by
  constructor <;> decide

/-- Counterexample for C8 as stated: `cexImage` is readable and not blank,
its edge fraction is *not below* the threshold (it equals it), yet
`verify` fails with "No UI elements detected" — contradicting the claim
that the UI-content check passes whenever the fraction is not below the
threshold. -/
theorem c8_counterexample :
    is_blank cexImage = false
    ∧ edge_fraction cexImage = EDGE_THRESHOLD
    ∧ ¬ (edge_fraction cexImage < EDGE_THRESHOLD)
    ∧ verify cexImage = (false, "No UI elements detected") := by
  have h1 := cexImage_not_blank
  have h2 := cexImage_fraction
  have h3 : has_ui_elements cexImage = false := by
    unfold has_ui_elements
    rw [h2]
    simp
  refine ⟨h1, h2, by rw [h2]; exact lt_irrefl _, ?_⟩
  unfold verify
  rw [h1, h3]
  simp

/-- C8 amended: for every non-blank readable image, `verify` (without a
baseline) fails with "No UI elements detected" exactly when the fraction
of Sobel-edge pixels is *at or below* the configured minimum density
(default 0.005) — passing requires the fraction to strictly exceed the
threshold, so a fraction exactly at the threshold fails; and a
high-contrast checkerboard image is judged to contain UI elements. -/
theorem c8_ui_density_amended :
    (∀ img : Image, is_blank img = false →
      (verify img = (false, "No UI elements detected") ↔
        edge_fraction img ≤ EDGE_THRESHOLD))
    ∧ has_ui_elements checkerboard = true := by
  refine ⟨?_, checkerboard_facts.1⟩
  intro img hb
  unfold verify
  rw [hb]
  by_cases hui : has_ui_elements img = true
  · have hlt : EDGE_THRESHOLD < edge_fraction img := by
      have := hui
      unfold has_ui_elements at this
      exact of_decide_eq_true this
    rw [hui]
    simp only [Bool.false_eq_true, if_false, Bool.true_eq_false, Prod.mk.injEq]
    constructor
    · rintro ⟨h, -⟩
      exact absurd h (by decide)
    · intro h
      exact absurd h (not_le.mpr hlt)
  · have hle : edge_fraction img ≤ EDGE_THRESHOLD := by
      have hf : has_ui_elements img = false := by
        cases h : has_ui_elements img
        · rfl
        · exact absurd h hui
      unfold has_ui_elements at hf
      exact not_lt.mp (of_decide_eq_false hf)
    have hf : has_ui_elements img = false := by
      cases h : has_ui_elements img
      · rfl
      · exact absurd h hui
    rw [hf]
    simp [hle]

/-- Witness for the amended C8 at a concrete input: applying it to
`cexImage` (non-blank, edge fraction exactly at the threshold) yields the
"No UI elements detected" failure. -/
theorem c8_ui_density_amended_witness :
    verify cexImage = (false, "No UI elements detected") := by
  refine (c8_ui_density_amended.1 cexImage cexImage_not_blank).mpr ?_
  rw [cexImage_fraction]

/-! ## Lifecycle orchestrator (`_test_variant`, `test.py:428-630`)

The orchestrator drives external effects (podman, sockets, HTTP, the
screenshot pipeline).  Those are injected through a `TestEnv` oracle; the
embedding returns the trace of external events in order, the final
per-check results, the outcome (return code or propagated exception), and
the final state of the cleanup registry.  Exceptions can arise at the
fallible call sites of the `try` body (modelled by `RaisePoint`) and from
the two `assert`s at `test.py:558` and `test.py:577`; the teardown calls
of the `finally` block (`podman.stop`, `podman.rm`, `podman.compose_down`)
run commands with `check=False` and never raise. -/

/-- Fields of `TestConfig` (`config.py:30-42`) consulted by the modelled
logic.  `ready`, `screenshot_wait`, `screenshot_path`, `https` and
`annotations` only parameterise external calls and are omitted. -/
structure TestConfig where
  mode : String := ""
  port : Option Int := none
  health : Option String := none
  wait : Nat := 120
  compose : Bool := false

/-- The CIT-relevant label values extracted by `_read_labels`
(`test.py:70-98`). -/
structure Labels where
  port : Option Int := none
  health : Option String := none

/-- The points of the `try` body of `_test_variant` at which an external
call can raise. -/
inductive RaisePoint where
  | start
  | shell
  | ipRes
  | port
  | health
  | screenshot
deriving DecidableEq

/-- Exceptions that can escape the `try` body: an external failure at a
`RaisePoint`, or one of the two `assert` statements firing. -/
inductive RunExc where
  | ext (p : RaisePoint)
  | assertPort
  | assertHealth
deriving DecidableEq

/-- Outcome of `_test_variant`: a returned exit code, or an exception
propagating (after the `finally` block has run). -/
inductive Outcome where
  | ret (rc : Nat)
  | exc (e : RunExc)
deriving DecidableEq

/-- The per-check result dictionary initialised at `test.py:502-508`. -/
structure Results where
  shell : String := "skip"
  port : String := "skip"
  health : String := "skip"
  screenshot : String := "skip"
  verify : String := "skip"
deriving DecidableEq

/-- The `rc == 0` flag recorded in the JSON artifact (`test.py:618`): the
local `rc` is 1 from initialisation (`test.py:509`) on every path except
the success returns, which set it to 0 just before returning. -/
def passedOf : Outcome → Bool
  | .ret 0 => true
  | _ => false

/-- External events of one `_test_variant` run, in order. -/
inductive Event where
  | register (e : CleanupEntry)
  | composeUp (file : String)
  | runDetached (name : String)
  | shellCheck
  | ipResolve
  | readyWait (ok : Bool)
  | portCheck
  | healthCheck
  | screenshotCheck
  | writeJson (mode : String) (r : Results) (passed : Bool)
  | composeDown (file : String)
  | stopContainer (name : String)
  | rmContainer (name : String)
  | deregister (e : CleanupEntry)
deriving DecidableEq

/-- Oracle for the external world one `_test_variant` run interacts
with. -/
structure TestEnv where
  labels : Labels := {}
  podmanComposeFound : Bool := true
  composeFileFound : Option String := none
  baseline : Bool := false
  missingDeps : Bool := false
  shellOk : Bool := true
  ip : String := "10.88.0.2"
  readyObs : Nat → ReadyObs := fun _ => ⟨true, true⟩
  portOk : Bool := true
  healthOk : Bool := true
  screenshotOk : Bool := true
  raiseAt : Option RaisePoint := none
  jsonOutput : Bool := false
  containerName : String := "cit-1700000000-100"

/-- The result of one `_test_variant` run in the model. -/
structure RunOutput where
  trace : List Event
  results : Results
  outcome : Outcome
  registry : List CleanupEntry

/-- The label info used for the merge: in compose mode labels are forced
empty (`test.py:459`), otherwise they are read from the image
(`test.py:461`). -/
def labelInfoOf (t : TestConfig) (env : TestEnv) : Labels :=
  if t.compose then {} else env.labels

/-- The merged port before defaulting (`test.py:464`, Python `or`). -/
def mergedPort (cfgPort labelPort : Option Int) : Option Int :=
  pyOrInt cfgPort labelPort

/-- The merged health path before defaulting (`test.py:465`). -/
def mergedHealth (cfgHealth labelHealth : Option String) : Option String :=
  pyOrStr cfgHealth labelHealth

/-- Modes whose checks need a port (`test.py:488`). -/
def needsPort (mode : String) : Bool :=
  mode = "port" ∨ mode = "health" ∨ mode = "screenshot"

/-- Modes whose checks need a health path (`test.py:493`). -/
def needsHealth (mode : String) : Bool :=
  mode = "health" ∨ mode = "screenshot"

/-- The port after the mode-dependent defaulting of `test.py:488-490`:
`8080` fills in only when the merged value is `None` and the mode needs a
port. -/
def effectivePort (cfgPort labelPort : Option Int) (mode : String) : Option Int :=
  if needsPort mode ∧ mergedPort cfgPort labelPort = none then some 8080
  else mergedPort cfgPort labelPort

/-- The health path after the defaulting of `test.py:493-495`. -/
def effectiveHealth (cfgHealth labelHealth : Option String) (mode : String) :
    Option String :=
  if needsHealth mode ∧ mergedHealth cfgHealth labelHealth = none then some "/"
  else mergedHealth cfgHealth labelHealth

/-- The effective mode of the run (`test.py:482-484`): `_resolve_mode`
applied to the requested mode and the *merged* (pre-default) port and
health values. -/
def effectiveModeOf (t : TestConfig) (env : TestEnv) : String :=
  resolve_mode t.mode
    (mergedPort t.port (labelInfoOf t env).port)
    (mergedHealth t.health (labelInfoOf t env).health)
    env.baseline env.missingDeps

/-- The cleanup entry registered at `test.py:512-516`: `(str(compose_file),
None)` in compose mode (where `compose_file` is always set at this point),
`(None, container_name)` otherwise. -/
def cleanupEntryOf (t : TestConfig) (env : TestEnv) : CleanupEntry :=
  ⟨if t.compose then env.composeFileFound else none,
   if t.compose then none else some env.containerName⟩

/-- The teardown calls of the `finally` block (`test.py:622-626`). -/
def teardownEventsOf (t : TestConfig) (env : TestEnv) : List Event :=
  if t.compose then [Event.composeDown ((env.composeFileFound).getD "")]
  else [Event.stopContainer env.containerName,
        Event.rmContainer env.containerName]

/-- The check ladder from the port test down (`test.py:557-613`), shared
by the compose and non-compose paths.  The two `assert`s fire when the
needed value is `None` (possible e.g. in compose mode with effective mode
`shell`, where no default is filled in). -/
def portOnward (env : TestEnv) (mode : String) (port : Option Int)
    (health : Option String) (r : Results) : List Event × Results × Outcome :=
  match port with
  | none => ([], r, .exc .assertPort)
  | some _ =>
    if env.raiseAt = some RaisePoint.port then
      ([.portCheck], r, .exc (.ext .port))
    else if env.portOk = false then
      ([.portCheck], { r with port := "fail" }, .ret 1)
    else
      let r1 := { r with port := "pass" }
      if mode = "port" then ([.portCheck], r1, .ret 0)
      else
        match health with
        | none => ([.portCheck], r1, .exc .assertHealth)
        | some _ =>
          if env.raiseAt = some RaisePoint.health then
            ([.portCheck, .healthCheck], r1, .exc (.ext .health))
          else if env.healthOk = false then
            ([.portCheck, .healthCheck], { r1 with health := "fail" }, .ret 1)
          else
            let r2 := { r1 with health := "pass" }
            if mode = "health" then
              ([.portCheck, .healthCheck], r2, .ret 0)
            else if env.raiseAt = some RaisePoint.screenshot then
              ([.portCheck, .healthCheck, .screenshotCheck], r2,
                .exc (.ext .screenshot))
            else if env.screenshotOk = false then
              ([.portCheck, .healthCheck, .screenshotCheck],
                { r2 with screenshot := "fail" }, .ret 1)
            else
              ([.portCheck, .healthCheck, .screenshotCheck],
                { r2 with screenshot := "pass", verify := "pass" }, .ret 0)

/-- The `try` body of `_test_variant` (`test.py:519-613`): start the
workload, then (in non-compose mode) the shell test, the IP resolution
and — for `health`/`screenshot` modes — the ready wait, whose boolean
result is computed and *discarded* exactly as at `test.py:555`; then the
ladder from the port check.  A raise at a `RaisePoint` ends the body with
that exception after the corresponding event. -/
def runBody (t : TestConfig) (env : TestEnv) (mode : String)
    (port : Option Int) (health : Option String) :
    List Event × Results × Outcome :=
  let startEvt : Event :=
    if t.compose then .composeUp ((env.composeFileFound).getD "")
    else .runDetached env.containerName
  if env.raiseAt = some RaisePoint.start then ([startEvt], {}, .exc (.ext .start))
  else if t.compose then
    let po := portOnward env mode port health {}
    (startEvt :: po.1, po.2.1, po.2.2)
  else
    if env.raiseAt = some RaisePoint.shell then
      ([startEvt, .shellCheck], {}, .exc (.ext .shell))
    else if env.shellOk = false then
      ([startEvt, .shellCheck], { shell := "fail" }, .ret 1)
    else
      let r1 : Results := { shell := "pass" }
      if mode = "shell" then ([startEvt, .shellCheck], r1, .ret 0)
      else if env.raiseAt = some RaisePoint.ipRes then
        ([startEvt, .shellCheck, .ipResolve], r1, .exc (.ext .ipRes))
      else if env.ip = "" then
        ([startEvt, .shellCheck, .ipResolve], r1, .ret 1)
      else
        let readyEvts : List Event :=
          if mode = "health" ∨ mode = "screenshot" then
            [Event.readyWait (wait_for_ready env.readyObs t.wait)]
          else []
        let po := portOnward env mode port health r1
        ([startEvt, .shellCheck, .ipResolve] ++ readyEvts ++ po.1,
          po.2.1, po.2.2)

/-- Embedding of `_test_variant` (`test.py:428-630`).  The two compose
guards (`test.py:448-454`) return 1 before anything is registered or
started.  Past them, the cleanup entry is appended to the registry
(`test.py:516`), the `try` body runs, and the `finally` block
(`test.py:615-630`) writes the JSON artifact when requested, issues the
teardown calls, and removes the entry from the registry (`list.remove`,
i.e. first occurrence by value — `List.erase`). -/
def testVariant (t : TestConfig) (env : TestEnv) (reg0 : List CleanupEntry) :
    RunOutput :=
  if t.compose ∧ env.podmanComposeFound = false then ⟨[], {}, .ret 1, reg0⟩
  else if t.compose ∧ env.composeFileFound = none then ⟨[], {}, .ret 1, reg0⟩
  else
    let li := labelInfoOf t env
    let mode := effectiveModeOf t env
    let port := effectivePort t.port li.port mode
    let health := effectiveHealth t.health li.health mode
    let entry := cleanupEntryOf t env
    let body := runBody t env mode port health
    let jsonEvts : List Event :=
      if env.jsonOutput then [.writeJson mode body.2.1 (passedOf body.2.2)]
      else []
    let reg1 := reg0 ++ [entry]
    let reg2 := if entry ∈ reg1 then reg1.erase entry else reg1
    ⟨Event.register entry ::
        (body.1 ++ jsonEvts ++ teardownEventsOf t env ++ [.deregister entry]),
      body.2.1, body.2.2, reg2⟩

/-- Erasing a freshly appended element restores the original list
(Python `list.remove` removes the first occurrence by value). -/
theorem erase_append_fresh {α : Type} [DecidableEq α] (l : List α) (a : α)
    (h : a ∉ l) : (l ++ [a]).erase a = l := by
  induction l with
  | nil => simp
  | cons x xs ih =>
    have hxa : x ≠ a := fun hx => h (hx ▸ List.mem_cons_self x xs)
    have hxs : a ∉ xs := fun hx => h (List.mem_cons_of_mem x hx)
    rw [List.cons_append, List.erase_cons_tail, ih hxs]
    simp [beq_iff_eq]
    exact fun hx => hxa hx

/-- C1: past the compose guards (the only returns before registration),
the cleanup entry is the *first* event of the run — appended to the
registry before the workload is started and before any check executes —
and on every exit path after registration (success, check failure, or an
exception raised at any raise point or assert inside the body) the
teardown calls are issued, the deregistration happens, and the registry
is restored to its pre-run state. -/
theorem c1_register_first_teardown_always (t : TestConfig) (env : TestEnv)
    (reg0 : List CleanupEntry)
    (hguard : t.compose = true →
      env.podmanComposeFound = true ∧ env.composeFileFound ≠ none)
    (hfresh : cleanupEntryOf t env ∉ reg0) :
    (∃ rest, (testVariant t env reg0).trace =
        Event.register (cleanupEntryOf t env) :: rest)
    ∧ (∀ e ∈ teardownEventsOf t env, e ∈ (testVariant t env reg0).trace)
    ∧ Event.deregister (cleanupEntryOf t env) ∈ (testVariant t env reg0).trace
    ∧ (testVariant t env reg0).registry = reg0 := by
  have hg1 : ¬ (t.compose = true ∧ env.podmanComposeFound = false) := by
    rintro ⟨hc, hp⟩
    rw [(hguard hc).1] at hp
    cases hp
  have hg2 : ¬ (t.compose = true ∧ env.composeFileFound = none) := by
    rintro ⟨hc, hp⟩
    exact (hguard hc).2 hp
  unfold testVariant
  rw [if_neg hg1, if_neg hg2]
  dsimp only
  refine ⟨⟨_, rfl⟩, ?_, ?_, ?_⟩
  · intro e he
    simp only [List.mem_cons, List.mem_append]
    tauto
  · simp only [List.mem_cons, List.mem_append, List.mem_singleton]
    tauto
  · rw [if_pos (List.mem_append.mpr (Or.inr (List.mem_singleton.mpr rfl)))]
    exact erase_append_fresh reg0 _ hfresh

/-- Witness for C1 at a concrete input: a default (non-compose,
all-checks-pass) run on an empty registry. -/
theorem c1_register_first_teardown_always_witness :
    (∃ rest, (testVariant {} {} []).trace =
        Event.register (cleanupEntryOf {} {}) :: rest)
    ∧ (∀ e ∈ teardownEventsOf {} {}, e ∈ (testVariant {} {} []).trace)
    ∧ Event.deregister (cleanupEntryOf {} {}) ∈ (testVariant {} {} []).trace
    ∧ (testVariant {} {} []).registry = [] :=
  c1_register_first_teardown_always {} {} [] (by intro h; cases h) (by simp)

/-- A health-mode run configuration for the C3 scenario. -/
def c3Cfg : TestConfig := { mode := "health", port := some 8080, wait := 12 }

/-- An environment in which the container exits during the ready wait
(the first log poll already reports it not running) and the port never
listens. -/
def c3Env : TestEnv := { readyObs := fun _ => ⟨false, false⟩, portOk := false }

/-- C3 evaluation at the failing input: the workload exits during the
ready wait before any pattern is observed, so `_wait_for_ready` computes
`False` — but `_test_variant` discards that value (`test.py:555`): the
trace records the discarded `readyWait false` and then still executes the
port check, which is what eventually fails the run (`port = "fail"`,
return code 1) only after its own timeout.  This contradicts the claimed
"hard failure" with the remaining checks not executed. -/
theorem c3_ready_exit_eval :
    wait_for_ready c3Env.readyObs c3Cfg.wait = false
    ∧ Event.readyWait false ∈ (testVariant c3Cfg c3Env []).trace
    ∧ Event.portCheck ∈ (testVariant c3Cfg c3Env []).trace
    ∧ (testVariant c3Cfg c3Env []).results.port = "fail"
    ∧ (testVariant c3Cfg c3Env []).outcome = Outcome.ret 1 := by
  refine ⟨rfl, ?_, ?_, rfl, rfl⟩ <;> decide

/-- Counterexample for C9 as stated: a `TestConfig` that sets `port: 0`
does not take precedence over a label port of 3000 — the Python `or`
merge treats the falsy 0 as unset, so the label value is used. -/
theorem c9_counterexample :
    effectivePort (some 0) (some 3000) "port" = some 3000
    ∧ effectivePort (some 0) (some 3000) "port" ≠ some 0 := by
  constructor <;> decide

/-- C9 amended: the effective port and health path obey the precedence
config over label over default, where "set" follows Python truthiness: a
*truthy* config value (non-zero port, non-empty health path) is used
regardless of labels; when the config value is falsy (`None`, `0`, `""`)
a present label value is used; and the defaults 8080 and "/" apply only
when the merged value is `None`, and only in modes that need them. -/
theorem c9_precedence_amended (cp lp : Option Int) (ch lh : Option String)
    (m : String) :
    (∀ n : Int, cp = some n → n ≠ 0 → effectivePort cp lp m = some n)
    ∧ (truthyInt cp = false → ∀ k : Int, lp = some k →
        effectivePort cp lp m = some k)
    ∧ (truthyInt cp = false → lp = none →
        effectivePort cp lp m = (if needsPort m then some 8080 else none))
    ∧ (∀ s : String, ch = some s → s ≠ "" → effectiveHealth ch lh m = some s)
    ∧ (truthyStr ch = false → ∀ k : String, lh = some k →
        effectiveHealth ch lh m = some k)
    ∧ (truthyStr ch = false → lh = none →
        effectiveHealth ch lh m = (if needsHealth m then some "/" else none)) := by
  refine ⟨?_, ?_, ?_, ?_, ?_, ?_⟩
  · rintro n rfl hn
    have ht : truthyInt (some n) = true := by simp [truthyInt, hn]
    simp [effectivePort, mergedPort, pyOrInt, ht]
  · rintro hcp k rfl
    simp [effectivePort, mergedPort, pyOrInt, hcp]
  · rintro hcp rfl
    by_cases hm : needsPort m = true
    · simp [effectivePort, mergedPort, pyOrInt, hcp, hm]
    · simp only [Bool.not_eq_true] at hm
      simp [effectivePort, mergedPort, pyOrInt, hcp, hm]
  · rintro s rfl hs
    have ht : truthyStr (some s) = true := by simp [truthyStr, hs]
    simp [effectiveHealth, mergedHealth, pyOrStr, ht]
  · rintro hch k rfl
    simp [effectiveHealth, mergedHealth, pyOrStr, hch]
  · rintro hch rfl
    by_cases hm : needsHealth m = true
    · simp [effectiveHealth, mergedHealth, pyOrStr, hch, hm]
    · simp only [Bool.not_eq_true] at hm
      simp [effectiveHealth, mergedHealth, pyOrStr, hch, hm]

/-- Witness for the amended C9 at concrete inputs: a truthy config port
wins over a label, and the default 8080 applies when both config and
labels leave the port unset in a mode that needs it. -/
theorem c9_precedence_amended_witness :
    effectivePort (some 3000) (some 99) "health" = some 3000
    ∧ effectivePort none none "port" = some 8080 := by
  constructor
  · exact (c9_precedence_amended (some 3000) (some 99) none none "health").1
      3000 rfl (by decide)
  · have h := (c9_precedence_amended none none none none "port").2.2.1
      (by decide) rfl
    simpa using h

/-- In the ladder from the port check on, either the screenshot check
passed and `verify` was set to `"pass"` with it, or the screenshot result
is not `"pass"` and `verify` is still `"skip"` — provided the incoming
results carry `"skip"` in both fields, as they do at every call site. -/
theorem portOnward_sv (env : TestEnv) (mode : String) (port : Option Int)
    (health : Option String) (r : Results)
    (hs : r.screenshot = "skip") (hv : r.verify = "skip") :
    ((portOnward env mode port health r).2.1.screenshot = "pass"
      ∧ (portOnward env mode port health r).2.1.verify = "pass")
    ∨ ((portOnward env mode port health r).2.1.screenshot ≠ "pass"
      ∧ (portOnward env mode port health r).2.1.verify = "skip") := by
  unfold portOnward
  rcases port with _ | p
  · right
    exact ⟨by simp [hs], hv⟩
  · rcases health with _ | h <;>
      repeat' split
    all_goals
      first
        | (left; constructor <;> simp_all <;> done)
        | (right; constructor <;> simp_all <;> done)

/-- The `try` body only ever sets `verify` together with a passing
screenshot check. -/
theorem runBody_sv (t : TestConfig) (env : TestEnv) (mode : String)
    (port : Option Int) (health : Option String) :
    ((runBody t env mode port health).2.1.screenshot = "pass"
      ∧ (runBody t env mode port health).2.1.verify = "pass")
    ∨ ((runBody t env mode port health).2.1.screenshot ≠ "pass"
      ∧ (runBody t env mode port health).2.1.verify = "skip") := by
  unfold runBody
  dsimp only
  repeat' split
  all_goals
    first
      | (right; constructor <;> (first | (dsimp only <;> decide) | decide))
      | exact portOnward_sv env mode port health {} rfl rfl
      | exact portOnward_sv env mode port health { shell := "pass" } rfl rfl

/-- C10: in every `TestResult` artifact written by `_test_variant`, the
`verify` field is `"pass"` exactly when the screenshot check fully
succeeded (`screenshot = "pass"`), and `"skip"` on every other run —
never `"fail"`, including runs where visual verification itself failed
(recorded only as `screenshot = "fail"`).  When a JSON artifact is
requested (and the compose guards passed, so an artifact is written at
all), the artifact event carries exactly these results. -/
theorem c10_verify_never_fail (t : TestConfig) (env : TestEnv)
    (reg0 : List CleanupEntry) :
    ((testVariant t env reg0).results.verify =
      (if (testVariant t env reg0).results.screenshot = "pass"
        then "pass" else "skip"))
    ∧ (env.jsonOutput = true →
      ¬ (t.compose = true ∧ env.podmanComposeFound = false) →
      ¬ (t.compose = true ∧ env.composeFileFound = none) →
      Event.writeJson (effectiveModeOf t env) (testVariant t env reg0).results
          (passedOf (testVariant t env reg0).outcome)
        ∈ (testVariant t env reg0).trace) := by
  constructor
  · by_cases hg1 : t.compose = true ∧ env.podmanComposeFound = false
    · unfold testVariant
      rw [if_pos hg1]
      dsimp only
      decide
    · by_cases hg2 : t.compose = true ∧ env.composeFileFound = none
      · unfold testVariant
        rw [if_neg hg1, if_pos hg2]
        dsimp only
        decide
      · unfold testVariant
        rw [if_neg hg1, if_neg hg2]
        dsimp only
        rcases runBody_sv t env (effectiveModeOf t env)
            (effectivePort t.port (labelInfoOf t env).port (effectiveModeOf t env))
            (effectiveHealth t.health (labelInfoOf t env).health
              (effectiveModeOf t env)) with ⟨h1, h2⟩ | ⟨h1, h2⟩
        · rw [h2, if_pos h1]
        · rw [h2, if_neg h1]
  · intro hjson hg1 hg2
    unfold testVariant
    rw [if_neg hg1, if_neg hg2]
    dsimp only
    rw [if_pos hjson]
    simp only [List.mem_cons, List.mem_append, List.mem_singleton]
    tauto

/-- Witness for C10 at a concrete input: a default passing screenshot-mode
run with a JSON artifact requested. -/
theorem c10_verify_never_fail_witness :
    ((testVariant { mode := "screenshot" } { jsonOutput := true } []).results.verify =
      (if (testVariant { mode := "screenshot" } { jsonOutput := true } []).results.screenshot = "pass"
        then "pass" else "skip"))
    ∧ (Event.writeJson (effectiveModeOf { mode := "screenshot" } { jsonOutput := true })
          (testVariant { mode := "screenshot" } { jsonOutput := true } []).results
          (passedOf (testVariant { mode := "screenshot" } { jsonOutput := true } []).outcome)
        ∈ (testVariant { mode := "screenshot" } { jsonOutput := true } []).trace) := by
  have h := c10_verify_never_fail { mode := "screenshot" } { jsonOutput := true } []
  exact ⟨h.1, h.2 rfl (by intro hx; exact absurd hx.2 (by decide))
    (by intro hx; exact absurd hx.1 (by decide))⟩

end DBuild
